import Mathlib

/-!
Verification of the two-factor-authentication lifecycle of
`packages/lib/services/auth.ts` (setupTwoFactorAuth, enableTwoFactorAuth,
disableTwoFactorAuth) against its natural-language specification.

The TypeScript operations are shallowly embedded as pure Lean functions.
External collaborators (the password verifier, the symmetric cipher, the
TOTP checker, `JSON.stringify`/`JSON.parse`, `otplib`'s secret generator and
key-URI builder, the QR renderer, and `crypto.randomBytes`) are fields of an
`Env` record: the spec declares them external interfaces, and their sources
are not part of this repository. Database access is modelled by passing the
looked-up record (`Option User`) in and returning the list of `prisma.user.update`
writes the call issued; `revalidateTag(getProfileCacheTag(userId))` is
modelled as the list of user ids whose profile cache tag was revalidated.
-/

namespace Formbricks

/-- JavaScript truthiness of a `string` value: falsy iff empty. -/
def strTruthy (s : String) : Bool := s != ""

/-- JavaScript truthiness of a nullable `string` value: falsy iff `null`
(`none`) or the empty string. -/
def optTruthy : Option String → Bool
  | none => false
  | some s => s != ""

/-- Lower-case hexadecimal digit for a nibble, as produced by Node's
`Buffer.toString("hex")`. -/
def hexDigitChar (n : Nat) : Char :=
  match n % 16 with
  | 0 => '0' | 1 => '1' | 2 => '2' | 3 => '3' | 4 => '4'
  | 5 => '5' | 6 => '6' | 7 => '7' | 8 => '8' | 9 => '9'
  | 10 => 'a' | 11 => 'b' | 12 => 'c' | 13 => 'd' | 14 => 'e'
  | _ => 'f'

/-- The two hex characters of one byte, high nibble first
(`Buffer.toString("hex")` on a single byte). -/
def byteToHexChars (b : Nat) : List Char :=
  [hexDigitChar (b / 16), hexDigitChar (b % 16)]

/-- `Buffer.toString("hex")`: each byte becomes two lower-case hex characters. -/
def bytesToHex (bs : List Nat) : String :=
  String.mk (bs.flatMap byteToHexChars)

/-- `backupCode.replaceAll("-", "")`: remove every hyphen character. -/
def removeHyphens (s : String) : String :=
  String.mk (s.data.filter (fun c => c != '-'))

/-- The user record fields read or written by the three operations
(`prisma.user` row). `twoFactorSecret` and `backupCodes` hold ciphertext. -/
structure User where
  id : String
  email : Option String
  name : Option String
  password : Option String
  identityProvider : String
  twoFactorEnabled : Bool
  twoFactorSecret : Option String
  backupCodes : Option String
deriving Repr, DecidableEq

/-- The distinct `throw new Error(...)` failures of the three operations,
one constructor per message. -/
inductive AuthError where
  /-- "User not found" -/
  | userNotFound
  /-- "User does not have a password set" -/
  | noPasswordSet
  /-- "Third party login is already enabled" -/
  | thirdPartyLogin
  /-- "Incorrect password" -/
  | incorrectPassword
  /-- "Two factor authentication is already enabled" -/
  | alreadyEnabled
  /-- "Two factor authentication is not enabled" -/
  | notEnabled
  /-- "Two factor setup has not been completed" -/
  | setupNotCompleted
  /-- "Encryption key not found" -/
  | encryptionKeyNotFound
  /-- "Invalid secret" -/
  | invalidSecret
  /-- "Invalid code" -/
  | invalidCode
  /-- "Second factor required" -/
  | secondFactorRequired
  /-- "Missing backup codes" -/
  | missingBackupCodes
  /-- "Incorrect backup code" -/
  | incorrectBackupCode
deriving Repr, DecidableEq

/-- A `prisma.user.update` call's `data` object: `some v` means the field is
set to `v`, `none` means the field is absent from the partial update. -/
structure UserUpdate where
  backupCodes : Option (Option String)
  twoFactorEnabled : Option Bool
  twoFactorSecret : Option (Option String)
deriving Repr, DecidableEq

/-- Apply a partial update to a user record (the store's `update` semantics). -/
def applyUpdate (u : User) (w : UserUpdate) : User :=
  { u with
    backupCodes := w.backupCodes.getD u.backupCodes
    twoFactorEnabled := w.twoFactorEnabled.getD u.twoFactorEnabled
    twoFactorSecret := w.twoFactorSecret.getD u.twoFactorSecret }

/-- Modelled from the spec: the external collaborators consumed by the
manager (spec section 6), whose sources are outside this repository —
password verifier, symmetric cipher, TOTP checker, `otplib` secret
generation and key-URI construction, QR rendering, JSON serialization of
the backup-code list, `crypto.randomBytes` entropy (given as the byte list
returned by the i-th `randomBytes(5)` call of a `setup` invocation), and
the process-wide `FORMBRICKS_ENCRYPTION_KEY` configuration value
(`none` models an unset environment variable). -/
structure Env where
  verifyPassword : String → String → Bool
  symmetricEncrypt : String → Option String → String
  symmetricDecrypt : String → Option String → String
  totpAuthenticatorCheck : String → String → Bool
  generateSecret : String
  randomBytes5 : Nat → List Nat
  jsonStringifyList : List String → String
  jsonParseList : String → List String
  keyuri : String → String → String → String
  qrToDataURL : String → String
  FORMBRICKS_ENCRYPTION_KEY : Option String

/-- JavaScript truthiness of the configured encryption key. -/
def Env.keyTruthy (env : Env) : Bool := optTruthy env.FORMBRICKS_ENCRYPTION_KEY

/-- What `setupTwoFactorAuth` resolves with on success. -/
structure SetupOutput where
  secret : String
  keyUri : String
  dataUri : String
  backupCodes : List String
deriving Repr, DecidableEq

/-- One operation's observable behaviour: the resolved value or thrown
error, the `prisma.user.update` calls issued, and the user ids whose
profile cache tag was revalidated. -/
structure OpTrace (α : Type) where
  result : Except AuthError α
  writes : List UserUpdate
  revalidated : List String

/-- The account label of the provisioning URI:
`user.email || user.name || user.id.toString()` (JavaScript `||` on
strings, so an empty or null field falls through to the next). -/
def accountLabel (user : User) : String :=
  if optTruthy user.email then user.email.getD ""
  else if optTruthy user.name then user.name.getD ""
  else user.id

/-- The backup codes a `setup` call generates: ten times
`crypto.randomBytes(5).toString("hex")`
(`Array.from(Array(10), () => crypto.randomBytes(5).toString("hex"))`,
the i-th entry coming from the i-th `randomBytes` call). -/
def setupBackupCodes (env : Env) : List String :=
  (List.range 10).map (fun i => bytesToHex (env.randomBytes5 i))

/-- The single `prisma.user.update` data of a successful `setup` call:
`backupCodes: symmetricEncrypt(JSON.stringify(backupCodes), KEY)`,
`twoFactorEnabled: false`, `twoFactorSecret: symmetricEncrypt(secret, KEY)`. -/
def setupWrite (env : Env) : UserUpdate :=
  { backupCodes := some (some (env.symmetricEncrypt
      (env.jsonStringifyList (setupBackupCodes env)) env.FORMBRICKS_ENCRYPTION_KEY)),
    twoFactorEnabled := some false,
    twoFactorSecret := some (some (env.symmetricEncrypt env.generateSecret
      env.FORMBRICKS_ENCRYPTION_KEY)) }

/-- What a successful `setup` call resolves with: the plaintext secret, the
`authenticator.keyuri(name, "Formbricks", secret)` provisioning URI, its
`qrcode.toDataURL` rendering, and the plaintext backup codes. -/
def setupOut (env : Env) (user : User) : SetupOutput :=
  { secret := env.generateSecret
    keyUri := env.keyuri (accountLabel user) "Formbricks" env.generateSecret
    dataUri := env.qrToDataURL (env.keyuri (accountLabel user) "Formbricks" env.generateSecret)
    backupCodes := setupBackupCodes env }

/-- `setupTwoFactorAuth(userId, password)` of `packages/lib/services/auth.ts`.
`store` is the record `prisma.user.findUnique` returns for `userId`. -/
def setupTwoFactorAuth (env : Env) (store : Option User) (_userId : String)
    (password : String) : OpTrace SetupOutput :=
  match store with
  | none => ⟨.error .userNotFound, [], []⟩
  | some user =>
    if !(optTruthy user.password) then ⟨.error .noPasswordSet, [], []⟩
    else if user.identityProvider != "email" then ⟨.error .thirdPartyLogin, [], []⟩
    else if !(env.verifyPassword password (user.password.getD "")) then
      ⟨.error .incorrectPassword, [], []⟩
    else ⟨.ok (setupOut env user), [setupWrite env], []⟩

/-- The single `prisma.user.update` data of a successful `enable` call:
`twoFactorEnabled: true` only. -/
def enableWrite : UserUpdate :=
  { backupCodes := none, twoFactorEnabled := some true, twoFactorSecret := none }

/-- `enableTwoFactorAuth(userId, code)` of `packages/lib/services/auth.ts`. -/
def enableTwoFactorAuth (env : Env) (store : Option User) (userId : String)
    (code : String) : OpTrace String :=
  match store with
  | none => ⟨.error .userNotFound, [], []⟩
  | some user =>
    if !(optTruthy user.password) then ⟨.error .noPasswordSet, [], []⟩
    else if user.identityProvider != "email" then ⟨.error .thirdPartyLogin, [], []⟩
    else if user.twoFactorEnabled then ⟨.error .alreadyEnabled, [], []⟩
    else if !(optTruthy user.twoFactorSecret) then ⟨.error .setupNotCompleted, [], []⟩
    else if !env.keyTruthy then ⟨.error .encryptionKeyNotFound, [], []⟩
    else if (env.symmetricDecrypt (user.twoFactorSecret.getD "")
        env.FORMBRICKS_ENCRYPTION_KEY).length != 32 then
      ⟨.error .invalidSecret, [], []⟩
    else if !(env.totpAuthenticatorCheck code (env.symmetricDecrypt
        (user.twoFactorSecret.getD "") env.FORMBRICKS_ENCRYPTION_KEY)) then
      ⟨.error .invalidCode, [], []⟩
    else ⟨.ok "Two factor authentication enabled", [enableWrite], [userId]⟩

/-- The `params` argument of `disableTwoFactorAuth`
(`TDisableTwoFactorAuthParams`). -/
structure DisableParams where
  code : String
  password : String
  backupCode : Option String
deriving Repr, DecidableEq

/-- The second-factor verification of `disableTwoFactorAuth`, after the
password check: the backup-code branch when `user.twoFactorEnabled &&
backupCode` is truthy, otherwise the TOTP branch (the `else if
(user.twoFactorEnabled)` arm; its guard is always true there since
`!user.twoFactorEnabled` already threw). -/
def disableSecondFactorCheck (env : Env) (user : User) (params : DisableParams) :
    Except AuthError Unit :=
  if user.twoFactorEnabled && optTruthy params.backupCode then
    if !env.keyTruthy then .error .encryptionKeyNotFound
    else if !(optTruthy user.backupCodes) then .error .missingBackupCodes
    else if !((env.jsonParseList (env.symmetricDecrypt (user.backupCodes.getD "")
        env.FORMBRICKS_ENCRYPTION_KEY)).contains
          (removeHyphens (params.backupCode.getD ""))) then
      .error .incorrectBackupCode
    else .ok ()
  else if user.twoFactorEnabled then
    if !(strTruthy params.code) then .error .secondFactorRequired
    else if !(optTruthy user.twoFactorSecret) then .error .setupNotCompleted
    else if !env.keyTruthy then .error .encryptionKeyNotFound
    else if (env.symmetricDecrypt (user.twoFactorSecret.getD "")
        env.FORMBRICKS_ENCRYPTION_KEY).length != 32 then
      .error .invalidSecret
    else if !(env.totpAuthenticatorCheck params.code (env.symmetricDecrypt
        (user.twoFactorSecret.getD "") env.FORMBRICKS_ENCRYPTION_KEY)) then
      .error .invalidCode
    else .ok ()
  else .ok ()

/-- The single `prisma.user.update` data of a successful `disable` call:
`backupCodes: null`, `twoFactorEnabled: false`, `twoFactorSecret: null`. -/
def disableWrite : UserUpdate :=
  { backupCodes := some none, twoFactorEnabled := some false, twoFactorSecret := some none }

/-- `disableTwoFactorAuth(userId, params)` of `packages/lib/services/auth.ts`.
The update and the cache revalidation happen exactly once, after whichever
second-factor branch ran. -/
def disableTwoFactorAuth (env : Env) (store : Option User) (userId : String)
    (params : DisableParams) : OpTrace String :=
  match store with
  | none => ⟨.error .userNotFound, [], []⟩
  | some user =>
    if !(optTruthy user.password) then ⟨.error .noPasswordSet, [], []⟩
    else if !user.twoFactorEnabled then ⟨.error .notEnabled, [], []⟩
    else if user.identityProvider != "email" then ⟨.error .thirdPartyLogin, [], []⟩
    else if !(env.verifyPassword params.password (user.password.getD "")) then
      ⟨.error .incorrectPassword, [], []⟩
    else
      match disableSecondFactorCheck env user params with
      | .error e => ⟨.error e, [], []⟩
      | .ok _ => ⟨.ok "Two factor authentication disabled", [disableWrite], [userId]⟩

/-- The store state after an operation: the looked-up record with the
issued writes applied in order. -/
def finalUser (u : User) (t : OpTrace α) : User :=
  t.writes.foldl applyUpdate u

/-- The spec's record invariant: `twoFactorEnabled == true` implies the
encrypted secret is present and decrypts to exactly 32 characters. -/
def TwoFactorInvariant (env : Env) (u : User) : Prop :=
  u.twoFactorEnabled = true →
    ∃ enc, u.twoFactorSecret = some enc ∧
      (env.symmetricDecrypt enc env.FORMBRICKS_ENCRYPTION_KEY).length = 32

/-! ### A concrete environment and concrete records, used to instantiate
the theorems below on executable inputs. -/

/-- Split a character list at commas (helper for the concrete JSON model,
structurally recursive so that it evaluates by `rfl`). -/
def splitCommaAux : List Char → List Char → List String
  | [], acc => [String.mk acc.reverse]
  | c :: rest, acc =>
    if c = ',' then String.mk acc.reverse :: splitCommaAux rest []
    else splitCommaAux rest (c :: acc)

/-- Split a string at commas. -/
def splitComma (s : String) : List String := splitCommaAux s.data []

/-- A concrete instantiation of the external collaborators: the cipher is
the identity (so round-trip holds trivially), the password verifier is
string equality, the TOTP checker accepts exactly "123456", and the JSON
serialization of the backup-code list is comma separation. -/
def cEnv : Env :=
  { verifyPassword := fun p h => p == h
    symmetricEncrypt := fun s _ => s
    symmetricDecrypt := fun s _ => s
    totpAuthenticatorCheck := fun c _ => c == "123456"
    generateSecret := "JBSWY3DPEHPK3PXPJBSWY3DPEHPK3PXP"
    randomBytes5 := fun _ => [1, 2, 3, 4, 5]
    jsonStringifyList := fun xs => String.intercalate "," xs
    jsonParseList := splitComma
    keyuri := fun account issuer secret =>
      "otpauth://totp/" ++ issuer ++ ":" ++ account ++ "?secret=" ++ secret
    qrToDataURL := fun uri => "data:image/png;base64," ++ uri
    FORMBRICKS_ENCRYPTION_KEY := some "key" }

/-- A user with two-factor authentication fully enabled (secret of 32
characters, two stored backup codes). -/
def enabledUser : User :=
  { id := "u1", email := some "alice@example.com", name := some "Alice"
    password := some "pw", identityProvider := "email"
    twoFactorEnabled := true
    twoFactorSecret := some "JBSWY3DPEHPK3PXPJBSWY3DPEHPK3PXP"
    backupCodes := some "abcd123456,zzzz000000" }

/-- A user who completed setup but has not yet enabled two-factor
authentication. -/
def pendingUser : User := { enabledUser with twoFactorEnabled := false }

/-- A record with two-factor enabled but no password set (such a record
passes the enabled check of the store but fails the password guard). -/
def enabledNoPasswordUser : User := { enabledUser with password := none }

/-- Lower-case hexadecimal digit predicate (digits 0-9 and letters a-f). -/
def isLowerHexDigit (c : Char) : Bool :=
  c.isDigit || ('a' ≤ c && c ≤ 'f')

/-! ### Trace-shape lemmas: each operation either throws before its single
`prisma.user.update`, leaving no write and no revalidation, or issues
exactly its one final update. -/

theorem setup_trace_shape (env : Env) (store : Option User) (userId password : String) :
    (∃ e, setupTwoFactorAuth env store userId password = ⟨.error e, [], []⟩) ∨
    (∃ user, store = some user ∧
      setupTwoFactorAuth env store userId password =
        ⟨.ok (setupOut env user), [setupWrite env], []⟩) := by
  cases store with
  | none => exact .inl ⟨.userNotFound, rfl⟩
  | some user =>
    simp only [setupTwoFactorAuth]
    repeat' split
    · exact .inl ⟨.noPasswordSet, rfl⟩
    · exact .inl ⟨.thirdPartyLogin, rfl⟩
    · exact .inl ⟨.incorrectPassword, rfl⟩
    · exact .inr ⟨user, rfl, rfl⟩

theorem enable_trace_shape (env : Env) (store : Option User) (userId code : String) :
    (∃ e, enableTwoFactorAuth env store userId code = ⟨.error e, [], []⟩) ∨
    (∃ user, store = some user ∧
      enableTwoFactorAuth env store userId code =
        ⟨.ok "Two factor authentication enabled", [enableWrite], [userId]⟩) := by
  cases store with
  | none => exact .inl ⟨.userNotFound, rfl⟩
  | some user =>
    simp only [enableTwoFactorAuth]
    repeat' split
    · exact .inl ⟨.noPasswordSet, rfl⟩
    · exact .inl ⟨.thirdPartyLogin, rfl⟩
    · exact .inl ⟨.alreadyEnabled, rfl⟩
    · exact .inl ⟨.setupNotCompleted, rfl⟩
    · exact .inl ⟨.encryptionKeyNotFound, rfl⟩
    · exact .inl ⟨.invalidSecret, rfl⟩
    · exact .inl ⟨.invalidCode, rfl⟩
    · exact .inr ⟨user, rfl, rfl⟩

theorem disable_trace_shape (env : Env) (store : Option User) (userId : String)
    (params : DisableParams) :
    (∃ e, disableTwoFactorAuth env store userId params = ⟨.error e, [], []⟩) ∨
    (∃ user, store = some user ∧
      disableTwoFactorAuth env store userId params =
        ⟨.ok "Two factor authentication disabled", [disableWrite], [userId]⟩) := by
  cases store with
  | none => exact .inl ⟨.userNotFound, rfl⟩
  | some user =>
    simp only [disableTwoFactorAuth]
    repeat' split
    all_goals first
      | exact .inr ⟨user, rfl, rfl⟩
      | exact .inl ⟨_, rfl⟩

/-! ### Claim theorems -/

/-- C2: On every successful `disableTwoFactorAuth` call — whether the
backup-code branch or the TOTP branch authenticated — the single persisted
update sets `backupCodes` to null, `twoFactorSecret` to null and
`twoFactorEnabled` to false, and the profile cache entry for the user id
is invalidated; the full backup-code set is cleared either way. -/
theorem C2_disable_success_clears_everything (env : Env) (store : Option User)
    (userId : String) (params : DisableParams) (msg : String)
    (hok : (disableTwoFactorAuth env store userId params).result = .ok msg) :
    (disableTwoFactorAuth env store userId params).writes = [disableWrite] ∧
    disableWrite.backupCodes = some none ∧
    disableWrite.twoFactorSecret = some none ∧
    disableWrite.twoFactorEnabled = some false ∧
    (disableTwoFactorAuth env store userId params).revalidated = [userId] := by
  rcases disable_trace_shape env store userId params with ⟨e, h⟩ | ⟨user, _, h⟩
  · rw [h] at hok
    exact absurd hok (by simp)
  · rw [h]
    exact ⟨rfl, rfl, rfl, rfl, rfl⟩

theorem C2_witness :
    (disableTwoFactorAuth cEnv (some enabledUser) "u1"
      ⟨"123456", "pw", none⟩).writes = [disableWrite] ∧
    disableWrite.backupCodes = some none ∧
    disableWrite.twoFactorSecret = some none ∧
    disableWrite.twoFactorEnabled = some false ∧
    (disableTwoFactorAuth cEnv (some enabledUser) "u1"
      ⟨"123456", "pw", none⟩).revalidated = ["u1"] :=
  C2_disable_success_clears_everything cEnv (some enabledUser) "u1"
    ⟨"123456", "pw", none⟩ "Two factor authentication disabled" (by rfl)

/-- C3: When the supplied password does not match the stored hash (and the
user exists, has a password, is enabled, and uses the email provider),
`disableTwoFactorAuth` fails with the incorrect-password error and writes
nothing, whatever `code` and `backupCode` were supplied; moreover the whole
trace is identical for every other choice of `code` and `backupCode`, so no
backup-code or TOTP verification influences the outcome. -/
theorem C3_disable_wrong_password_unauthorized (env : Env) (user : User)
    (userId : String) (params : DisableParams)
    (hpw : optTruthy user.password = true)
    (hen : user.twoFactorEnabled = true)
    (hprov : user.identityProvider = "email")
    (hverify : env.verifyPassword params.password (user.password.getD "") = false) :
    (disableTwoFactorAuth env (some user) userId params).result =
      .error .incorrectPassword ∧
    (disableTwoFactorAuth env (some user) userId params).writes = [] ∧
    (∀ q : DisableParams, q.password = params.password →
      disableTwoFactorAuth env (some user) userId q =
        disableTwoFactorAuth env (some user) userId params) := by
  refine ⟨?_, ?_, ?_⟩
  · simp [disableTwoFactorAuth, hpw, hen, hprov, hverify]
  · simp [disableTwoFactorAuth, hpw, hen, hprov, hverify]
  · intro q hq
    simp [disableTwoFactorAuth, hpw, hen, hprov, hverify, hq]

theorem C3_witness :
    (disableTwoFactorAuth cEnv (some enabledUser) "u1"
      ⟨"123456", "wrong", none⟩).result = .error .incorrectPassword ∧
    (disableTwoFactorAuth cEnv (some enabledUser) "u1"
      ⟨"123456", "wrong", none⟩).writes = [] ∧
    (∀ q : DisableParams, q.password = "wrong" →
      disableTwoFactorAuth cEnv (some enabledUser) "u1" q =
        disableTwoFactorAuth cEnv (some enabledUser) "u1" ⟨"123456", "wrong", none⟩) :=
  C3_disable_wrong_password_unauthorized cEnv enabledUser "u1"
    ⟨"123456", "wrong", none⟩ (by rfl) (by rfl) (by rfl) (by rfl)

/-- C9: Supplying the empty string as `backupCode` is JavaScript-falsy, so
`disableTwoFactorAuth` behaves exactly as if no `backupCode` were supplied:
the TOTP branch runs, and with an empty `code` as well (and all earlier
guards passing) the call fails with the missing-second-factor error. -/
theorem C9_empty_backupCode_is_totp_branch (env : Env) (store : Option User)
    (userId code password : String) :
    disableTwoFactorAuth env store userId ⟨code, password, some ""⟩ =
      disableTwoFactorAuth env store userId ⟨code, password, none⟩ ∧
    (∀ user, store = some user → code = "" →
      optTruthy user.password = true →
      user.twoFactorEnabled = true →
      user.identityProvider = "email" →
      env.verifyPassword password (user.password.getD "") = true →
      (disableTwoFactorAuth env store userId ⟨code, password, some ""⟩).result =
        .error .secondFactorRequired) := by
  constructor
  · cases store with
    | none => rfl
    | some user =>
      simp only [disableTwoFactorAuth]
      have h : disableSecondFactorCheck env user ⟨code, password, some ""⟩ =
          disableSecondFactorCheck env user ⟨code, password, none⟩ := by
        simp [disableSecondFactorCheck, optTruthy]
      rw [h]
  · rintro user rfl hcode hpw hen hprov hverify
    subst hcode
    simp only [optTruthy] at hpw
    simp [disableTwoFactorAuth, disableSecondFactorCheck, hpw, hen, hprov, hverify,
      optTruthy, strTruthy]

theorem C9_witness :
    disableTwoFactorAuth cEnv (some enabledUser) "u1" ⟨"", "pw", some ""⟩ =
      disableTwoFactorAuth cEnv (some enabledUser) "u1" ⟨"", "pw", none⟩ ∧
    (disableTwoFactorAuth cEnv (some enabledUser) "u1"
      ⟨"", "pw", some ""⟩).result = .error .secondFactorRequired :=
  ⟨(C9_empty_backupCode_is_totp_branch cEnv (some enabledUser) "u1" "" "pw").1,
   (C9_empty_backupCode_is_totp_branch cEnv (some enabledUser) "u1" "" "pw").2
     enabledUser rfl rfl (by rfl) (by rfl) (by rfl) (by rfl)⟩

/-- C10: With the same non-empty `backupCode` and the same `password`, two
`disableTwoFactorAuth` calls that differ only in `code` produce identical
traces (result, writes and cache revalidations): the backup-code branch
never reads `code`. -/
theorem C10_code_ignored_in_backup_branch (env : Env) (store : Option User)
    (userId code1 code2 password b : String) (hb : b ≠ "") :
    disableTwoFactorAuth env store userId ⟨code1, password, some b⟩ =
      disableTwoFactorAuth env store userId ⟨code2, password, some b⟩ := by
  cases store with
  | none => rfl
  | some user =>
    simp only [disableTwoFactorAuth]
    have h : disableSecondFactorCheck env user ⟨code1, password, some b⟩ =
        disableSecondFactorCheck env user ⟨code2, password, some b⟩ := by
      by_cases hen : user.twoFactorEnabled <;>
        simp [disableSecondFactorCheck, optTruthy, hb, hen]
    rw [h]

theorem C10_witness :
    disableTwoFactorAuth cEnv (some enabledUser) "u1"
        ⟨"000000", "pw", some "abcd123456"⟩ =
      disableTwoFactorAuth cEnv (some enabledUser) "u1"
        ⟨"123456", "pw", some "abcd123456"⟩ :=
  C10_code_ignored_in_backup_branch cEnv (some enabledUser) "u1"
    "000000" "123456" "pw" "abcd123456" (by decide)

/-- A successful `enable` call implies every guard passed: the user has a
password, uses the email provider, was not yet enabled, has a stored secret
that decrypts to exactly 32 characters — and the call's trace is the
success trace. -/
theorem enable_success_facts (env : Env) (user : User) (userId code : String)
    (out : String)
    (hok : (enableTwoFactorAuth env (some user) userId code).result = .ok out) :
    optTruthy user.password = true ∧
    user.identityProvider = "email" ∧
    user.twoFactorEnabled = false ∧
    (∃ s, user.twoFactorSecret = some s ∧
      (env.symmetricDecrypt s env.FORMBRICKS_ENCRYPTION_KEY).length = 32) ∧
    enableTwoFactorAuth env (some user) userId code =
      ⟨.ok "Two factor authentication enabled", [enableWrite], [userId]⟩ := by
  simp only [enableTwoFactorAuth] at hok ⊢
  repeat' split at hok
  any_goals exact Except.noConfusion hok
  rename_i hpw hprov hen hsec hkey hlen hcode
  refine ⟨by simpa using hpw, by simpa using hprov, by simpa using hen, ?_, ?_⟩
  · rcases hs : user.twoFactorSecret with _ | s
    · rw [hs] at hsec
      simp [optTruthy] at hsec
    · rw [hs] at hlen
      exact ⟨s, rfl, by simpa using hlen⟩
  · simp [hpw, hprov, hen, hsec, hkey, hlen, hcode]

/-- C1: starting from a record satisfying the invariant
(`twoFactorEnabled` implies a stored secret decrypting to 32 characters),
each of setup, enable and disable, when it succeeds, leaves a persisted
record that satisfies the invariant again: setup and disable force
`twoFactorEnabled` to false, and enable sets it to true only after checking
the decrypted secret has length 32. -/
theorem C1_operations_preserve_invariant (env : Env) (user : User) (userId : String) :
    (∀ password out, TwoFactorInvariant env user →
      (setupTwoFactorAuth env (some user) userId password).result = .ok out →
      TwoFactorInvariant env
        (finalUser user (setupTwoFactorAuth env (some user) userId password))) ∧
    (∀ code out, TwoFactorInvariant env user →
      (enableTwoFactorAuth env (some user) userId code).result = .ok out →
      TwoFactorInvariant env
        (finalUser user (enableTwoFactorAuth env (some user) userId code))) ∧
    (∀ params out, TwoFactorInvariant env user →
      (disableTwoFactorAuth env (some user) userId params).result = .ok out →
      TwoFactorInvariant env
        (finalUser user (disableTwoFactorAuth env (some user) userId params))) := by
  refine ⟨?_, ?_, ?_⟩
  · intro password out _ hok
    rcases setup_trace_shape env (some user) userId password with ⟨e, h⟩ | ⟨u, hu, h⟩
    · rw [h] at hok
      exact absurd hok (by simp)
    · rw [h]
      intro hen
      simp [finalUser, applyUpdate, setupWrite] at hen
  · intro code out _ hok
    obtain ⟨-, -, -, ⟨s, hs, h32⟩, htrace⟩ :=
      enable_success_facts env user userId code out hok
    rw [htrace]
    intro _
    exact ⟨s, by simp [finalUser, applyUpdate, enableWrite, hs], h32⟩
  · intro params out _ hok
    rcases disable_trace_shape env (some user) userId params with ⟨e, h⟩ | ⟨u, hu, h⟩
    · rw [h] at hok
      exact absurd hok (by simp)
    · rw [h]
      intro hen
      simp [finalUser, applyUpdate, disableWrite] at hen

theorem C1_witness :
    TwoFactorInvariant cEnv pendingUser ∧
    TwoFactorInvariant cEnv
      (finalUser pendingUser (setupTwoFactorAuth cEnv (some pendingUser) "u1" "pw")) ∧
    TwoFactorInvariant cEnv
      (finalUser pendingUser (enableTwoFactorAuth cEnv (some pendingUser) "u1" "123456")) ∧
    TwoFactorInvariant cEnv enabledUser ∧
    TwoFactorInvariant cEnv
      (finalUser enabledUser (disableTwoFactorAuth cEnv (some enabledUser) "u1"
        ⟨"123456", "pw", none⟩)) := by
  have hpend : TwoFactorInvariant cEnv pendingUser := by
    intro h
    simp [pendingUser, enabledUser] at h
  have hen : TwoFactorInvariant cEnv enabledUser := by
    intro _
    exact ⟨"JBSWY3DPEHPK3PXPJBSWY3DPEHPK3PXP", rfl, rfl⟩
  refine ⟨hpend, ?_, ?_, hen, ?_⟩
  · exact (C1_operations_preserve_invariant cEnv pendingUser "u1").1 "pw"
      (setupOut cEnv pendingUser) hpend rfl
  · exact (C1_operations_preserve_invariant cEnv pendingUser "u1").2.1 "123456"
      "Two factor authentication enabled" hpend rfl
  · exact (C1_operations_preserve_invariant cEnv enabledUser "u1").2.2
      ⟨"123456", "pw", none⟩ "Two factor authentication disabled" hen rfl

/-- C5: a failing call leaves the store untouched — each operation's only
mutation point is its single final update, so on every error the list of
issued writes (and revalidations) is empty, and even on success at most one
update is issued. -/
theorem C5_no_mutation_on_failure (env : Env) (store : Option User) (userId : String) :
    (∀ password e, (setupTwoFactorAuth env store userId password).result = .error e →
      (setupTwoFactorAuth env store userId password).writes = [] ∧
      (setupTwoFactorAuth env store userId password).revalidated = []) ∧
    (∀ password, (setupTwoFactorAuth env store userId password).writes.length ≤ 1) ∧
    (∀ code e, (enableTwoFactorAuth env store userId code).result = .error e →
      (enableTwoFactorAuth env store userId code).writes = [] ∧
      (enableTwoFactorAuth env store userId code).revalidated = []) ∧
    (∀ code, (enableTwoFactorAuth env store userId code).writes.length ≤ 1) ∧
    (∀ params e, (disableTwoFactorAuth env store userId params).result = .error e →
      (disableTwoFactorAuth env store userId params).writes = [] ∧
      (disableTwoFactorAuth env store userId params).revalidated = []) ∧
    (∀ params, (disableTwoFactorAuth env store userId params).writes.length ≤ 1) := by
  refine ⟨?_, ?_, ?_, ?_, ?_, ?_⟩
  · intro password e herr
    rcases setup_trace_shape env store userId password with ⟨e', h⟩ | ⟨u, hu, h⟩
    · rw [h]
      exact ⟨rfl, rfl⟩
    · rw [h] at herr
      exact absurd herr (by simp)
  · intro password
    rcases setup_trace_shape env store userId password with ⟨e', h⟩ | ⟨u, hu, h⟩ <;>
      simp [h]
  · intro code e herr
    rcases enable_trace_shape env store userId code with ⟨e', h⟩ | ⟨u, hu, h⟩
    · rw [h]
      exact ⟨rfl, rfl⟩
    · rw [h] at herr
      exact absurd herr (by simp)
  · intro code
    rcases enable_trace_shape env store userId code with ⟨e', h⟩ | ⟨u, hu, h⟩ <;>
      simp [h]
  · intro params e herr
    rcases disable_trace_shape env store userId params with ⟨e', h⟩ | ⟨u, hu, h⟩
    · rw [h]
      exact ⟨rfl, rfl⟩
    · rw [h] at herr
      exact absurd herr (by simp)
  · intro params
    rcases disable_trace_shape env store userId params with ⟨e', h⟩ | ⟨u, hu, h⟩ <;>
      simp [h]

theorem C5_witness :
    ((setupTwoFactorAuth cEnv none "u1" "pw").writes = [] ∧
      (setupTwoFactorAuth cEnv none "u1" "pw").revalidated = []) ∧
    ((enableTwoFactorAuth cEnv none "u1" "123456").writes = [] ∧
      (enableTwoFactorAuth cEnv none "u1" "123456").revalidated = []) ∧
    ((disableTwoFactorAuth cEnv none "u1" ⟨"123456", "pw", none⟩).writes = [] ∧
      (disableTwoFactorAuth cEnv none "u1" ⟨"123456", "pw", none⟩).revalidated = []) ∧
    (setupTwoFactorAuth cEnv none "u1" "pw").writes.length ≤ 1 :=
  ⟨(C5_no_mutation_on_failure cEnv none "u1").1 "pw" .userNotFound rfl,
   (C5_no_mutation_on_failure cEnv none "u1").2.2.1 "123456" .userNotFound rfl,
   (C5_no_mutation_on_failure cEnv none "u1").2.2.2.2.1 ⟨"123456", "pw", none⟩
     .userNotFound rfl,
   (C5_no_mutation_on_failure cEnv none "u1").2.1 "pw"⟩

/-- C4 (amended): under the backup-code branch's guards, the branch accepts
exactly when the supplied `backupCode` with all hyphen characters removed is
a member of the decrypted stored list; only hyphens are removed, so
"ab-cd-12-34-56" normalizes to "abcd123456". -/
theorem C4_backup_code_membership (env : Env) (user : User) (userId : String)
    (params : DisableParams) (b : String)
    (hpw : optTruthy user.password = true)
    (hen : user.twoFactorEnabled = true)
    (hprov : user.identityProvider = "email")
    (hverify : env.verifyPassword params.password (user.password.getD "") = true)
    (hbc : params.backupCode = some b) (hbne : b ≠ "")
    (hkey : env.keyTruthy = true)
    (hstored : optTruthy user.backupCodes = true) :
    ((disableTwoFactorAuth env (some user) userId params).result =
        .ok "Two factor authentication disabled" ↔
      removeHyphens b ∈ env.jsonParseList (env.symmetricDecrypt
        (user.backupCodes.getD "") env.FORMBRICKS_ENCRYPTION_KEY)) ∧
    removeHyphens "ab-cd-12-34-56" = "abcd123456" := by
  refine ⟨?_, rfl⟩
  have hbt : optTruthy (some b) = true := by
    simp [optTruthy, hbne]
  by_cases hmem : removeHyphens b ∈ env.jsonParseList (env.symmetricDecrypt
      (user.backupCodes.getD "") env.FORMBRICKS_ENCRYPTION_KEY)
  · have hcon : (env.jsonParseList (env.symmetricDecrypt
        (user.backupCodes.getD "") env.FORMBRICKS_ENCRYPTION_KEY)).contains
          (removeHyphens b) = true := List.elem_iff.mpr hmem
    simp [disableTwoFactorAuth, disableSecondFactorCheck, hpw, hen, hprov, hverify,
      hbt, hbc, hkey, hstored, hcon, hmem]
  · have hcon : (env.jsonParseList (env.symmetricDecrypt
        (user.backupCodes.getD "") env.FORMBRICKS_ENCRYPTION_KEY)).contains
          (removeHyphens b) = false := by
      rcases h : (env.jsonParseList (env.symmetricDecrypt
          (user.backupCodes.getD "") env.FORMBRICKS_ENCRYPTION_KEY)).contains
            (removeHyphens b) with _ | _
      · rfl
      · exact absurd (List.elem_iff.mp h) hmem
    simp [disableTwoFactorAuth, disableSecondFactorCheck, hpw, hen, hprov, hverify,
      hbt, hbc, hkey, hstored, hcon, hmem]

theorem C4_witness :
    ((disableTwoFactorAuth cEnv (some enabledUser) "u1"
        ⟨"", "pw", some "ab-cd-12-34-56"⟩).result =
        .ok "Two factor authentication disabled" ↔
      removeHyphens "ab-cd-12-34-56" ∈ cEnv.jsonParseList (cEnv.symmetricDecrypt
        (enabledUser.backupCodes.getD "") cEnv.FORMBRICKS_ENCRYPTION_KEY)) ∧
    removeHyphens "ab-cd-12-34-56" = "abcd123456" :=
  C4_backup_code_membership cEnv enabledUser "u1"
    ⟨"", "pw", some "ab-cd-12-34-56"⟩ "ab-cd-12-34-56"
    (by rfl) (by rfl) (by rfl) (by rfl) (by rfl) (by decide) (by rfl) (by rfl)

/-- C4 counterexample: the spec's second example input "abcd1234 56"
contains a space, which `replaceAll("-", "")` does not remove; with
"abcd123456" stored in the backup-code list, the input "ab-cd-12-34-56" is
accepted but "abcd1234 56" is rejected. -/
theorem C4_counterexample :
    removeHyphens "abcd1234 56" ≠ "abcd123456" ∧
    "abcd123456" ∈ cEnv.jsonParseList (cEnv.symmetricDecrypt
      (enabledUser.backupCodes.getD "") cEnv.FORMBRICKS_ENCRYPTION_KEY) ∧
    (disableTwoFactorAuth cEnv (some enabledUser) "u1"
      ⟨"", "pw", some "abcd1234 56"⟩).result = .error .incorrectBackupCode ∧
    (disableTwoFactorAuth cEnv (some enabledUser) "u1"
      ⟨"", "pw", some "ab-cd-12-34-56"⟩).result =
      .ok "Two factor authentication disabled" := by
  exact ⟨by decide, by decide, rfl, rfl⟩

theorem hexDigitChar_hex (n : Nat) : isLowerHexDigit (hexDigitChar n) = true := by
  unfold hexDigitChar
  have h : n % 16 < 16 := Nat.mod_lt _ (by norm_num)
  set m := n % 16 with hm
  interval_cases m <;> decide

theorem bytesToHex_length (bs : List Nat) : (bytesToHex bs).length = 2 * bs.length := by
  show (bs.flatMap byteToHexChars).length = 2 * bs.length
  induction bs with
  | nil => rfl
  | cons b t ih =>
    simp only [List.flatMap_cons, List.length_append, List.length_cons, ih, byteToHexChars,
      List.length_nil]
    omega

theorem bytesToHex_chars (bs : List Nat) :
    ∀ c ∈ (bytesToHex bs).data, isLowerHexDigit c = true := by
  intro c hc
  have hc' : c ∈ bs.flatMap byteToHexChars := hc
  rcases List.mem_flatMap.mp hc' with ⟨b, _, hcb⟩
  rcases hcb with _ | ⟨_, h⟩
  · exact hexDigitChar_hex _
  · rcases h with _ | ⟨_, h⟩
    · exact hexDigitChar_hex _
    · cases h

/-- C6: a successful `setup` for a password-checked email user returns the
freshly generated 32-character secret and exactly ten backup codes, each a
10-character lower-case hexadecimal string; it persists the symmetric
encryptions of the secret and of the serialized backup-code list while
forcibly setting `twoFactorEnabled` to false (whatever it was before); and
it returns the plaintext secret, key URI, image data URI and plaintext
backup codes. -/
theorem C6_setup_success (env : Env) (user : User) (userId password : String)
    (out : SetupOutput)
    (hgen : env.generateSecret.length = 32)
    (hrand : ∀ i, (env.randomBytes5 i).length = 5)
    (hok : (setupTwoFactorAuth env (some user) userId password).result = .ok out) :
    out = setupOut env user ∧
    out.secret = env.generateSecret ∧
    out.secret.length = 32 ∧
    out.backupCodes.length = 10 ∧
    (∀ c ∈ out.backupCodes, c.length = 10 ∧ ∀ ch ∈ c.data, isLowerHexDigit ch = true) ∧
    (setupTwoFactorAuth env (some user) userId password).writes = [setupWrite env] ∧
    (setupWrite env).twoFactorSecret =
      some (some (env.symmetricEncrypt env.generateSecret env.FORMBRICKS_ENCRYPTION_KEY)) ∧
    (setupWrite env).backupCodes =
      some (some (env.symmetricEncrypt (env.jsonStringifyList out.backupCodes)
        env.FORMBRICKS_ENCRYPTION_KEY)) ∧
    (setupWrite env).twoFactorEnabled = some false ∧
    out.keyUri = env.keyuri (accountLabel user) "Formbricks" out.secret ∧
    out.dataUri = env.qrToDataURL out.keyUri := by
  rcases setup_trace_shape env (some user) userId password with ⟨e, h⟩ | ⟨u, hu, h⟩
  · rw [h] at hok
    exact absurd hok (by simp)
  · have huu : u = user := by
      exact (Option.some.injEq _ _ ▸ hu).symm
    subst huu
    rw [h] at hok
    have hout : out = setupOut env u := by
      simpa using hok.symm
    subst hout
    refine ⟨rfl, rfl, hgen, by simp [setupOut, setupBackupCodes], ?_, by rw [h], rfl,
      rfl, rfl, rfl, rfl⟩
    intro c hc
    simp only [setupOut, setupBackupCodes, List.mem_map] at hc
    rcases hc with ⟨i, _, rfl⟩
    refine ⟨?_, bytesToHex_chars _⟩
    rw [bytesToHex_length, hrand i]

theorem C6_witness :
    setupOut cEnv pendingUser = setupOut cEnv pendingUser ∧
    (setupOut cEnv pendingUser).secret = cEnv.generateSecret ∧
    (setupOut cEnv pendingUser).secret.length = 32 ∧
    (setupOut cEnv pendingUser).backupCodes.length = 10 ∧
    (∀ c ∈ (setupOut cEnv pendingUser).backupCodes,
      c.length = 10 ∧ ∀ ch ∈ c.data, isLowerHexDigit ch = true) ∧
    (setupTwoFactorAuth cEnv (some pendingUser) "u1" "pw").writes = [setupWrite cEnv] ∧
    (setupWrite cEnv).twoFactorSecret =
      some (some (cEnv.symmetricEncrypt cEnv.generateSecret cEnv.FORMBRICKS_ENCRYPTION_KEY)) ∧
    (setupWrite cEnv).backupCodes =
      some (some (cEnv.symmetricEncrypt
        (cEnv.jsonStringifyList (setupOut cEnv pendingUser).backupCodes)
        cEnv.FORMBRICKS_ENCRYPTION_KEY)) ∧
    (setupWrite cEnv).twoFactorEnabled = some false ∧
    (setupOut cEnv pendingUser).keyUri =
      cEnv.keyuri (accountLabel pendingUser) "Formbricks" (setupOut cEnv pendingUser).secret ∧
    (setupOut cEnv pendingUser).dataUri = cEnv.qrToDataURL (setupOut cEnv pendingUser).keyUri :=
  C6_setup_success cEnv pendingUser "u1" "pw" (setupOut cEnv pendingUser)
    (by rfl) (fun _ => rfl) (by rfl)

/-- C7 counterexample: on an enabled record with no password, `enable`
fails with the missing-password error, not the already-enabled
(PreconditionFailed, already enabled) error the claim names for every
enabled record. -/
theorem C7_counterexample :
    enabledNoPasswordUser.twoFactorEnabled = true ∧
    (enableTwoFactorAuth cEnv (some enabledNoPasswordUser) "u1" "123456").result =
      .error .noPasswordSet ∧
    (enableTwoFactorAuth cEnv (some enabledNoPasswordUser) "u1" "123456").result ≠
      .error .alreadyEnabled := by
  refine ⟨rfl, rfl, ?_⟩
  intro h
  have h' : (Except.error .noPasswordSet : Except AuthError String) =
      Except.error .alreadyEnabled := h
  simp at h'

/-- C7 (amended): for every record with `twoFactorEnabled` already true that
also has a password set and the email identity provider, `enable` fails
with the already-enabled error for every code, without mutating the record;
in particular a successful enable immediately followed by a second enable
with the same code fails with the already-enabled error. -/
theorem C7_reenable_fails (env : Env) (user : User) (userId : String) :
    (∀ code, user.twoFactorEnabled = true → optTruthy user.password = true →
      user.identityProvider = "email" →
      (enableTwoFactorAuth env (some user) userId code).result = .error .alreadyEnabled ∧
      (enableTwoFactorAuth env (some user) userId code).writes = []) ∧
    (∀ code out, (enableTwoFactorAuth env (some user) userId code).result = .ok out →
      (enableTwoFactorAuth env
        (some (finalUser user (enableTwoFactorAuth env (some user) userId code)))
        userId code).result = .error .alreadyEnabled) := by
  constructor
  · intro code hen hpw hprov
    constructor <;> simp [enableTwoFactorAuth, hen, hpw, hprov]
  · intro code out hok
    obtain ⟨hpw, hprov, _, _, htrace⟩ := enable_success_facts env user userId code out hok
    rw [htrace]
    simp [finalUser, applyUpdate, enableWrite, enableTwoFactorAuth, hpw, hprov]

theorem C7_witness :
    ((enableTwoFactorAuth cEnv (some enabledUser) "u1" "123456").result =
        .error .alreadyEnabled ∧
      (enableTwoFactorAuth cEnv (some enabledUser) "u1" "123456").writes = []) ∧
    (enableTwoFactorAuth cEnv
      (some (finalUser pendingUser
        (enableTwoFactorAuth cEnv (some pendingUser) "u1" "123456")))
      "u1" "123456").result = .error .alreadyEnabled :=
  ⟨(C7_reenable_fails cEnv enabledUser "u1").1 "123456" rfl rfl rfl,
   (C7_reenable_fails cEnv pendingUser "u1").2 "123456"
     "Two factor authentication enabled" rfl⟩

/-- C8: on a successful `setup`, the returned key URI is the external
key-URI builder applied to issuer "Formbricks" and the account label
email-or-name-or-id (first JavaScript-truthy, in that preference order);
given that the builder follows the `otpauth://` key-URI convention the
returned URI starts with "otpauth://"; and the returned data URI is the
rendered image encoding of that key URI. -/
theorem C8_keyuri_convention (env : Env) (user : User) (userId password : String)
    (out : SetupOutput)
    (hconv : ∀ a i s, ∃ rest, env.keyuri a i s = "otpauth://" ++ rest)
    (hok : (setupTwoFactorAuth env (some user) userId password).result = .ok out) :
    out.keyUri = env.keyuri (accountLabel user) "Formbricks" out.secret ∧
    (∃ rest, out.keyUri = "otpauth://" ++ rest) ∧
    (optTruthy user.email = true → accountLabel user = user.email.getD "") ∧
    (optTruthy user.email = false → optTruthy user.name = true →
      accountLabel user = user.name.getD "") ∧
    (optTruthy user.email = false → optTruthy user.name = false →
      accountLabel user = user.id) ∧
    out.dataUri = env.qrToDataURL out.keyUri := by
  rcases setup_trace_shape env (some user) userId password with ⟨e, h⟩ | ⟨u, hu, h⟩
  · rw [h] at hok
    exact absurd hok (by simp)
  · have huu : u = user := by
      exact (Option.some.injEq _ _ ▸ hu).symm
    subst huu
    rw [h] at hok
    have hout : out = setupOut env u := by
      simpa using hok.symm
    subst hout
    refine ⟨rfl, hconv _ _ _, ?_, ?_, ?_, rfl⟩
    · intro he
      simp [accountLabel, he]
    · intro he hn
      simp [accountLabel, he, hn]
    · intro he hn
      simp [accountLabel, he, hn]

theorem C8_witness :
    (setupOut cEnv pendingUser).keyUri =
      cEnv.keyuri (accountLabel pendingUser) "Formbricks" (setupOut cEnv pendingUser).secret ∧
    (∃ rest, (setupOut cEnv pendingUser).keyUri = "otpauth://" ++ rest) ∧
    (optTruthy pendingUser.email = true →
      accountLabel pendingUser = pendingUser.email.getD "") ∧
    (optTruthy pendingUser.email = false → optTruthy pendingUser.name = true →
      accountLabel pendingUser = pendingUser.name.getD "") ∧
    (optTruthy pendingUser.email = false → optTruthy pendingUser.name = false →
      accountLabel pendingUser = pendingUser.id) ∧
    (setupOut cEnv pendingUser).dataUri = cEnv.qrToDataURL (setupOut cEnv pendingUser).keyUri :=
  C8_keyuri_convention cEnv pendingUser "u1" "pw" (setupOut cEnv pendingUser)
    (fun a i s => ⟨"totp/" ++ i ++ ":" ++ a ++ "?secret=" ++ s, by
      show "otpauth://totp/" ++ i ++ ":" ++ a ++ "?secret=" ++ s = _
      simp only [String.append_assoc]
      rw [← String.append_assoc "otpauth://" "totp/"]
      rfl⟩)
    (by rfl)

end Formbricks
